import Mathlib

/-!
Verification of the sandbox runtime service (`main.py` of the
python-runtime-sandbox image source).

The service is shallowly embedded as follows.

* A POSIX path is a list of components; `[]` denotes the filesystem root `/`.
  The workspace root (`WORKSPACE_DIR`, computed by `os.path.realpath` at
  startup) is passed to every operation as `base_dir : List String`, a
  canonical component list.
* The filesystem is an oracle record `FS`: a symlink table, regular-file
  contents, a directory predicate and a `scandir` enumeration oracle
  (whose `error` case models an exception raised mid-scan).
* `os.path.realpath` is `realpath`: components are processed left to right,
  `.` is dropped, `..` pops the resolved prefix, and symlinks are expanded
  through the symlink table.  Expansion is bounded by a fuel budget, which
  models the bounded symlink following of the resolver (a loop in the real
  resolver likewise stops expanding and leaves the remainder unresolved);
  none of the proved properties depends on the size of the budget.
* `os.path.commonpath` on two absolute canonical paths is the longest
  common component prefix, `commonpath`.
* `urllib.parse.unquote` is `unquote`, decoding `%XX` hex escapes and
  leaving malformed escapes untouched (multi-byte UTF-8 sequences are
  decoded bytewise, which agrees with CPython on the ASCII range).
* Each HTTP handler is a total Lean function returning an `HResp`
  (status code plus JSON-level body); handlers that may write take and
  return the filesystem.  Totality reflects that every handler catches the
  exceptions of its body (`ValueError` from the guard, `OSError` from I/O),
  so no request terminates the process.
* `subprocess.run` is an oracle `world : SubprocessCall → Except String
  RunResult`; the `error` case models an exception raised before the shell
  produced a real exit status.
-/

deriving instance DecidableEq for Except

/-- The empty string. -/
def emptyStr : String := ""

/-- The path separator. -/
def slashStr : String := "/"

/-- The `.` path component. -/
def dotStr : String := "."

/-- The `..` path component. -/
def dotDotStr : String := ".."

/-- Message of the `ValueError` raised by `get_safe_path`. -/
def accessDeniedMsg : String := "Access denied: Path must be within the workspace"

/-- Generic 403 body used by the download, list and exists handlers. -/
def accessDeniedShort : String := "Access denied"

/-- Prefix of the upload handler's 500 message. -/
def uploadFailMsg : String := "File upload failed: "

/-- Left part of the upload handler's 200 message. -/
def uploadOkL : String := "File \x27"

/-- Right part of the upload handler's 200 message. -/
def uploadOkR : String := "\x27 uploaded successfully."

/-- Message of `IsADirectoryError`, up to the quoted path. -/
def errnoIsADirMsg : String := "[Errno 21] Is a directory: \x27"

/-- Message of `FileNotFoundError`, up to the quoted path. -/
def errnoNoEntMsg : String := "[Errno 2] No such file or directory: \x27"

/-- Closing quote of an `OSError` message. -/
def quoteStr : String := "\x27"

/-- 404 body of the download handler. -/
def fileNotFoundMsg : String := "File not found"

/-- 404 body of the list handler. -/
def notDirMsg : String := "Path is not a directory"

/-- Prefix of the list handler's 500 message. -/
def listFailMsg : String := "List files failed: "

/-- Prefix of the executor's synthetic-failure stderr. -/
def execFailMsg : String := "Failed to execute command: "

/-- Content type used by the download handler's `FileResponse`. -/
def octetStream : String := "application/octet-stream"

/-- Directory-entry type tag for files. -/
def fileTypeStr : String := "file"

/-- Directory-entry type tag for directories. -/
def dirTypeStr : String := "directory"

/-- The `HOME` environment key. -/
def envHome : String := "HOME"

/-- The `XDG_RUNTIME_DIR` environment key. -/
def envRuntime : String := "XDG_RUNTIME_DIR"

/-- The `XDG_CACHE_HOME` environment key. -/
def envCache : String := "XDG_CACHE_HOME"

/-- The `XDG_CONFIG_HOME` environment key. -/
def envConfig : String := "XDG_CONFIG_HOME"

/-- Split a character list on `/`, keeping empty groups. -/
def splitSlash : List Char → List (List Char)
  | [] => [[]]
  | c :: rest =>
    if c = '/' then [] :: splitSlash rest
    else
      match splitSlash rest with
      | [] => [[c]]
      | g :: gs => (c :: g) :: gs

/-- Non-empty `/`-separated components of a path string, as the POSIX
resolver sees them (consecutive separators collapse). -/
def splitComponents (s : String) : List String :=
  ((splitSlash s.data).filter (fun g => g ≠ [])).map (fun g => ⟨g⟩)

/-- Python `str.lstrip("/")`: drop all leading separator characters. -/
def lstripSlashes (s : String) : String := ⟨s.data.dropWhile (fun c => c == '/')⟩

/-- Render a component list as an absolute path string, as `str()` of the
path shows it inside an `OSError` message. -/
def renderPath (p : List String) : String :=
  if p = [] then slashStr
  else p.foldl (fun acc c => acc ++ slashStr ++ c) emptyStr

/-- Value of a hexadecimal digit. -/
def hexVal (c : Char) : Option Nat :=
  if '0' ≤ c ∧ c ≤ '9' then some (c.toNat - '0'.toNat)
  else if 'a' ≤ c ∧ c ≤ 'f' then some (c.toNat - 'a'.toNat + 10)
  else if 'A' ≤ c ∧ c ≤ 'F' then some (c.toNat - 'A'.toNat + 10)
  else none

/-- Character-level body of `urllib.parse.unquote`: a `%` followed by two
hex digits decodes to that code point, any malformed escape is left as it
stands. -/
def unquoteAux : List Char → List Char
  | [] => []
  | [c] => [c]
  | [c, a] => c :: unquoteAux [a]
  | c :: a :: b :: rest =>
    if c = '%' then
      match hexVal a, hexVal b with
      | some x, some y => Char.ofNat (16 * x + y) :: unquoteAux rest
      | _, _ => c :: unquoteAux (a :: b :: rest)
    else c :: unquoteAux (a :: b :: rest)

/-- `urllib.parse.unquote`. -/
def unquote (s : String) : String := ⟨unquoteAux s.data⟩

/-- One entry as `os.scandir` plus `entry.stat()` reports it: name, byte
size, whether it is a directory, and modification time in epoch seconds. -/
structure DirEntry where
  name : String
  st_size : Nat
  is_dir : Bool
  st_mtime : Int
deriving DecidableEq

/-- Filesystem oracle.  `symlink` gives the target string of a symbolic
link, `files` the contents of a regular file, `dirs` whether a directory is
present, and `scandir` the immediate children of a directory (its `error`
case models an exception raised during enumeration or `stat`). -/
structure FS where
  symlink : List String → Option String
  files : List String → Option (List Nat)
  dirs : List String → Bool
  scandir : List String → Except String (List DirEntry)

/-- `os.path.exists` on an already-resolved path: a regular file or a
directory is present there. -/
def FS.pexists (fs : FS) (p : List String) : Bool :=
  (fs.files p).isSome || fs.dirs p

/-- `open(p, "wb")` followed by a full write: fails with
`IsADirectoryError` if a directory sits at `p`, fails with
`FileNotFoundError` if the parent directory is missing, otherwise replaces
the contents at `p` (creating or overwriting the file). -/
def FS.writeFile (fs : FS) (p : List String) (content : List Nat) : Except String FS :=
  if fs.dirs p then
    Except.error (errnoIsADirMsg ++ renderPath p ++ quoteStr)
  else if fs.dirs p.dropLast then
    Except.ok { fs with files := fun q => if q = p then some content else fs.files q }
  else
    Except.error (errnoNoEntMsg ++ renderPath p ++ quoteStr)

/-- Worker of `os.path.realpath`: process the pending components against
the resolved prefix, dropping `.`, popping on `..` and expanding symlinks
through the table.  `fuel` bounds symlink expansion; when it runs out the
remainder is left unresolved, as the real resolver does on a symlink
loop. -/
def realpathAux (fs : FS) : Nat → List String → List String → List String
  | _, resolved, [] => resolved
  | 0, resolved, c :: rest => resolved ++ c :: rest
  | Nat.succ fuel, resolved, c :: rest =>
    if c = dotStr then realpathAux fs fuel resolved rest
    else if c = dotDotStr then realpathAux fs fuel resolved.dropLast rest
    else
      match fs.symlink (resolved ++ [c]) with
      | none => realpathAux fs fuel (resolved ++ [c]) rest
      | some target =>
        if target.startsWith slashStr then
          realpathAux fs fuel [] (splitComponents target ++ rest)
        else
          realpathAux fs fuel resolved (splitComponents target ++ rest)

/-- `os.path.realpath` of an absolute path given by components. -/
def realpath (fs : FS) (comps : List String) : List String :=
  realpathAux fs (comps.length + 2560) [] comps

/-- `os.path.commonpath` of two absolute canonical paths: the longest
common component prefix. -/
def commonpath : List String → List String → List String
  | x :: xs, y :: ys => if x = y then x :: commonpath xs ys else []
  | _, _ => []

/-- `get_safe_path`: strip leading separators, join onto the workspace
root, canonicalize, and reject unless the common path prefix of the root
and the candidate is the root itself.  The `error` case is the raised
`ValueError`. -/
def get_safe_path (fs : FS) (base_dir : List String) (file_path : String) :
    Except String (List String) :=
  let clean_path := lstripSlashes file_path
  let full_path := realpath fs (base_dir ++ splitComponents clean_path)
  if commonpath base_dir full_path = base_dir then Except.ok full_path
  else Except.error accessDeniedMsg

/-- One JSON record emitted by the list handler. -/
structure EntryRecord where
  name : String
  size : Nat
  type : String
  mod_time : Int
deriving DecidableEq

/-- JSON-level response body. -/
inductive Body where
  | msg (message : String)
  | entries (es : List EntryRecord)
  | existsBody (path : String) (ex : Bool)
  | fileStream (path : List String) (media_type : String) (filename : String)
      (content : List Nat)
deriving DecidableEq

/-- HTTP response: status code and body. -/
structure HResp where
  status : Nat
  body : Body
deriving DecidableEq

/-- The record the list handler builds from one scanned entry. -/
def entryRecord (entry : DirEntry) : EntryRecord :=
  { name := entry.name
    size := entry.st_size
    type := if entry.is_dir then dirTypeStr else fileTypeStr
    mod_time := entry.st_mtime }

/-- `upload_file`: confine the filename, then write the received bytes;
any exception (the guard's `ValueError` or an `OSError` from the write) is
caught and answered with a 500 carrying `str(e)`; the filesystem is
returned alongside the response. -/
def upload_file (fs : FS) (base_dir : List String) (filename : String)
    (content : List Nat) : FS × HResp :=
  match get_safe_path fs base_dir filename with
  | Except.error e => (fs, ⟨500, Body.msg (uploadFailMsg ++ e)⟩)
  | Except.ok file_path =>
    match fs.writeFile file_path content with
    | Except.error e => (fs, ⟨500, Body.msg (uploadFailMsg ++ e)⟩)
    | Except.ok fs2 => (fs2, ⟨200, Body.msg (uploadOkL ++ filename ++ uploadOkR)⟩)

/-- `download_file`: decode, confine (403 on rejection), then stream the
regular file at the confined path (404 when there is none), suggesting the
decoded input as the save name. -/
def download_file (fs : FS) (base_dir : List String) (encoded_file_path : String) :
    HResp :=
  let decoded_path := unquote encoded_file_path
  match get_safe_path fs base_dir decoded_path with
  | Except.error _ => ⟨403, Body.msg accessDeniedShort⟩
  | Except.ok full_path =>
    match fs.files full_path with
    | some content => ⟨200, Body.fileStream full_path octetStream decoded_path content⟩
    | none => ⟨404, Body.msg fileNotFoundMsg⟩

/-- Body of `list_files` after confinement: 404 unless the resolved path
is a directory, 500 if enumeration raises, otherwise one record per
immediate child. -/
def list_resolved (fs : FS) (full_path : List String) : HResp :=
  if fs.dirs full_path then
    match fs.scandir full_path with
    | Except.ok es => ⟨200, Body.entries (es.map entryRecord)⟩
    | Except.error e => ⟨500, Body.msg (listFailMsg ++ e)⟩
  else ⟨404, Body.msg notDirMsg⟩

/-- `list_files`: decode, confine (403 on rejection), then list. -/
def list_files (fs : FS) (base_dir : List String) (encoded_file_path : String) :
    HResp :=
  let decoded_path := unquote encoded_file_path
  match get_safe_path fs base_dir decoded_path with
  | Except.error _ => ⟨403, Body.msg accessDeniedShort⟩
  | Except.ok full_path => list_resolved fs full_path

/-- The `exists` handler (`exists` is reserved in Lean): decode, confine
(403 on rejection), then report the decoded input together with
`os.path.exists` of the confined path. -/
def exists_path (fs : FS) (base_dir : List String) (encoded_file_path : String) :
    HResp :=
  let decoded_path := unquote encoded_file_path
  match get_safe_path fs base_dir decoded_path with
  | Except.error _ => ⟨403, Body.msg accessDeniedShort⟩
  | Except.ok full_path => ⟨200, Body.existsBody decoded_path (fs.pexists full_path)⟩

/-- Request model of the `/execute` endpoint. -/
structure ExecuteRequest where
  command : String
deriving DecidableEq

/-- Response model of the `/execute` endpoint. -/
structure ExecuteResponse where
  stdout : String
  stderr : String
  exit_code : Int
deriving DecidableEq

/-- The four directories resolved once at process start. -/
structure Dirs where
  workspace : List String
  runtime : List String
  cache : List String
  config : List String

/-- What `subprocess.run` receives from the executor. -/
structure SubprocessCall where
  cmd : String
  cwd : String
  env : String → Option String
  shell : Bool
  capture_output : Bool
  text : Bool

/-- What a completed `subprocess.run` reports. -/
structure RunResult where
  stdout : String
  stderr : String
  returncode : Int
deriving DecidableEq

/-- `os.environ.copy()` followed by the `update` with the four confined
directories. -/
def envOverlay (environ : String → Option String) (dirs : Dirs) :
    String → Option String :=
  fun k =>
    if k = envHome then some (renderPath dirs.workspace)
    else if k = envRuntime then some (renderPath dirs.runtime)
    else if k = envCache then some (renderPath dirs.cache)
    else if k = envConfig then some (renderPath dirs.config)
    else environ k

/-- The `subprocess.run` call the executor makes: the command string
verbatim, the workspace as working directory, the overlaid environment,
`shell=True`, `capture_output=True`, `text=True`. -/
def executeCall (environ : String → Option String) (dirs : Dirs)
    (request : ExecuteRequest) : SubprocessCall :=
  { cmd := request.command
    cwd := renderPath dirs.workspace
    env := envOverlay environ dirs
    shell := true
    capture_output := true
    text := true }

/-- `execute_command`: run the call through the subprocess oracle; a
completed run is echoed field by field, an exception is folded into the
response with empty stdout, a descriptive stderr and the synthetic exit
code 1. -/
def execute_command (world : SubprocessCall → Except String RunResult)
    (environ : String → Option String) (dirs : Dirs) (request : ExecuteRequest) :
    ExecuteResponse :=
  match world (executeCall environ dirs request) with
  | Except.ok process =>
    { stdout := process.stdout, stderr := process.stderr, exit_code := process.returncode }
  | Except.error e =>
    { stdout := emptyStr, stderr := execFailMsg ++ e, exit_code := 1 }

/-- All components are plain names: neither `.` nor `..`. -/
def cleanComps : List String → Bool
  | [] => true
  | c :: rest => !(c == dotStr) && !(c == dotDotStr) && cleanComps rest

/-- No step along `rest`, taken from `resolved`, crosses a symlink. -/
def noSymlinkAlong (fs : FS) : List String → List String → Bool
  | _, [] => true
  | resolved, c :: rest =>
    (fs.symlink (resolved ++ [c])).isNone && noSymlinkAlong fs (resolved ++ [c]) rest

/-- Component `tmp` of the test fixtures. -/
def tmpStr : String := "tmp"

/-- Component `workspace` of the test fixtures. -/
def wsStr : String := "workspace"

/-- A concrete workspace root, `/tmp/workspace`. -/
def root0 : List String := [tmpStr, wsStr]

/-- Name of the file already present in the fixture workspace. -/
def oldTxt : String := "old.txt"

/-- Error reported by the fixture `scandir` outside the workspace. -/
def scanFailMsg : String := "scandir failed"

/-- The fixture entry reported for `old.txt`. -/
def entry0 : DirEntry := { name := oldTxt, st_size := 2, is_dir := false, st_mtime := 5 }

/-- A concrete symlink-free filesystem: directories `/`, `/tmp` and
`/tmp/workspace`, and one regular file `/tmp/workspace/old.txt`. -/
def fs0 : FS where
  symlink := fun _ => none
  files := fun p => if p = [tmpStr, wsStr, oldTxt] then some [1, 2] else none
  dirs := fun p => p == ([] : List String) || p == [tmpStr] || p == root0
  scandir := fun p => if p = root0 then Except.ok [entry0] else Except.error scanFailMsg

/-- Fixture upload filename. -/
def ftxt : String := "f.txt"

/-- Fixture upload bytes. -/
def bytes0 : List Nat := [104, 105]

/-- The confined fixture upload target, `/tmp/workspace/f.txt`. -/
def p0 : List String := [tmpStr, wsStr, ftxt]

/-- The fixture filesystem after the upload of `bytes0` to `p0`. -/
def fs1 : FS := { fs0 with files := fun q => if q = p0 then some bytes0 else fs0.files q }

/-- A traversal input that the guard rejects from `root0`. -/
def dotdotEscape : String := "../escape"

/-- A separator-only input string. -/
def slashes0 : String := "///"

/-- Fixture key present in the process environment. -/
def pathKey : String := "PATH"

/-- Fixture value of `pathKey`. -/
def binPath : String := "/usr/bin"

/-- A concrete process environment. -/
def env0 : String → Option String := fun k => if k = pathKey then some binPath else none

/-- Fixture component of the runtime directory. -/
def rtStr : String := "rt"

/-- Fixture component of the cache directory. -/
def cacheStr : String := "cache"

/-- Fixture component of the config directory. -/
def cfgStr : String := "cfg"

/-- Concrete startup directories. -/
def dirs0 : Dirs :=
  { workspace := root0
    runtime := [tmpStr, rtStr]
    cache := [tmpStr, cacheStr]
    config := [tmpStr, cfgStr] }

/-- Fixture command. -/
def echoCmd : String := "echo hi"

/-- Concrete execute request. -/
def req0 : ExecuteRequest := { command := echoCmd }

/-- Message of the fixture subprocess failure. -/
def boomMsg : String := "boom"

/-- A subprocess oracle that always fails before the shell runs. -/
def worldErr : SubprocessCall → Except String RunResult :=
  fun _ => Except.error boomMsg

/-- Fixture stdout of a successful run. -/
def hiOut : String := "hi\n"

/-- A subprocess oracle for which every run completes. -/
def worldOk : SubprocessCall → Except String RunResult :=
  fun _ => Except.ok { stdout := hiOut, stderr := emptyStr, returncode := 0 }

/-- The common path prefix equals the left path only when the left path is
a prefix of the right one. -/
theorem commonpath_eq_append (a b : List String) (h : commonpath a b = a) :
    ∃ t, b = a ++ t := by
  induction a generalizing b with
  | nil => exact ⟨b, rfl⟩
  | cons x xs ih =>
    cases b with
    | nil => simp [commonpath] at h
    | cons y ys =>
      simp only [commonpath] at h
      by_cases hxy : x = y
      · rw [if_pos hxy] at h
        injection h with h1 h2
        obtain ⟨t, ht⟩ := ih ys h2
        exact ⟨t, by rw [← hxy, ht]; rfl⟩
      · rw [if_neg hxy] at h
        exact absurd h (by simp)

/-- The common path prefix of a path with itself is that path. -/
theorem commonpath_self (a : List String) : commonpath a a = a := by
  induction a with
  | nil => rfl
  | cons x xs ih => simp [commonpath, ih]

/-- Resolving components that are plain names and cross no symlink just
appends them, whatever the fuel. -/
theorem realpathAux_clean (fs : FS) (rest : List String) :
    ∀ resolved fuel, cleanComps rest = true → noSymlinkAlong fs resolved rest = true →
    realpathAux fs fuel resolved rest = resolved ++ rest := by
  induction rest with
  | nil => intro resolved fuel _ _; cases fuel <;> simp [realpathAux]
  | cons c rest ih =>
    intro resolved fuel hclean hsym
    simp only [cleanComps, Bool.and_eq_true, Bool.not_eq_eq_eq_not, Bool.not_true,
      beq_eq_false_iff_ne, ne_eq] at hclean
    simp only [noSymlinkAlong, Bool.and_eq_true, Option.isNone_iff_eq_none] at hsym
    cases fuel with
    | zero => rfl
    | succ fuel =>
      simp only [realpathAux]
      rw [if_neg hclean.1.1, if_neg hclean.1.2, hsym.1]
      rw [ih (resolved ++ [c]) fuel hclean.2 hsym.2]
      simp

/-- A canonical root (plain names, no symlink along it) resolves to
itself. -/
theorem realpath_root (fs : FS) (root : List String) (hclean : cleanComps root = true)
    (hsym : noSymlinkAlong fs [] root = true) : realpath fs root = root := by
  have := realpathAux_clean fs root [] (root.length + 2560) hclean hsym
  simpa [realpath] using this

/-- Resolution only consults the symlink table. -/
theorem realpathAux_symlink_congr (fs1 fs2 : FS) (h : fs1.symlink = fs2.symlink) :
    ∀ fuel resolved rest,
    realpathAux fs1 fuel resolved rest = realpathAux fs2 fuel resolved rest := by
  intro fuel
  induction fuel with
  | zero => intro resolved rest; cases rest <;> rfl
  | succ fuel ih =>
    intro resolved rest
    cases rest with
    | nil => rfl
    | cons c r =>
      simp only [realpathAux, h]
      by_cases h1 : c = dotStr
      · simp only [if_pos h1]
        exact ih resolved r
      · by_cases h2 : c = dotDotStr
        · simp only [if_neg h1, if_pos h2]
          exact ih resolved.dropLast r
        · simp only [if_neg h1, if_neg h2]
          cases hs : fs2.symlink (resolved ++ [c]) with
          | none =>
            simp only [hs]
            exact ih (resolved ++ [c]) r
          | some target =>
            simp only [hs]
            by_cases h3 : target.startsWith slashStr
            · simp only [if_pos h3]
              exact ih [] (splitComponents target ++ r)
            · simp only [if_neg h3]
              exact ih resolved (splitComponents target ++ r)

/-- The confinement guard only consults the symlink table of the
filesystem. -/
theorem get_safe_path_symlink_congr (fs1 fs2 : FS) (h : fs1.symlink = fs2.symlink)
    (base_dir : List String) (file_path : String) :
    get_safe_path fs1 base_dir file_path = get_safe_path fs2 base_dir file_path := by
  simp only [get_safe_path, realpath, realpathAux_symlink_congr fs1 fs2 h]

/-- A character other than `%` passes through `unquoteAux` unchanged. -/
theorem unquoteAux_cons_ne (c : Char) (h : c ≠ '%') (rest : List Char) :
    unquoteAux (c :: rest) = c :: unquoteAux rest := by
  cases rest with
  | nil => rfl
  | cons a rest2 =>
    cases rest2 with
    | nil => rfl
    | cons b rest3 =>
      simp only [unquoteAux]
      rw [if_neg h]

/-- A separator-only string decodes to itself. -/
theorem unquote_all_slash (s : String) (h : s.data.all (fun c => c == '/') = true) :
    unquote s = s := by
  have main : ∀ l : List Char, l.all (fun c => c == '/') = true → unquoteAux l = l := by
    intro l hl
    induction l with
    | nil => rfl
    | cons c rest ih =>
      simp only [List.all_cons, Bool.and_eq_true, beq_iff_eq] at hl
      rw [unquoteAux_cons_ne c (by rw [hl.1]; decide) rest, ih hl.2]
  cases s with
  | mk data => simp only [unquote, String.data] at *; rw [main data h]

/-- The guard has a single failure message. -/
theorem get_safe_path_error_eq (fs : FS) (base_dir : List String) (file_path : String)
    (e : String) (h : get_safe_path fs base_dir file_path = Except.error e) :
    e = accessDeniedMsg := by
  simp only [get_safe_path] at h
  split at h
  · exact absurd h (by simp)
  · injection h with h1
    exact h1.symm

/-- A successful write keeps the symlink table and the directory
predicate, stores the new contents at the target, and leaves every other
file untouched. -/
theorem writeFile_ok (fs fs2 : FS) (p : List String) (content : List Nat)
    (h : fs.writeFile p content = Except.ok fs2) :
    fs2.symlink = fs.symlink ∧ fs2.files p = some content ∧ fs2.dirs = fs.dirs ∧
    ∀ q, q ≠ p → fs2.files q = fs.files q := by
  simp only [FS.writeFile] at h
  split at h
  · exact absurd h (by simp)
  · split at h
    · injection h with h2
      subst h2
      refine ⟨rfl, by simp, rfl, fun q hq => by simp [if_neg hq]⟩
    · exact absurd h (by simp)

/-- Claim C1: for every input string, when the confinement guard
`get_safe_path` accepts, the value it returns is the canonicalized path
obtained by stripping leading separators from the input, joining it onto
the workspace root and resolving it; the longest common path prefix of the
root and that value is the root exactly, and hence the returned resolved
path never lies outside the root (the root is a prefix of it).  Otherwise
the guard rejects. -/
theorem confinement_guard_sound (fs : FS) (base_dir : List String) (file_path : String)
    (full_path : List String)
    (h : get_safe_path fs base_dir file_path = Except.ok full_path) :
    full_path = realpath fs (base_dir ++ splitComponents (lstripSlashes file_path)) ∧
    commonpath base_dir full_path = base_dir ∧
    ∃ t, full_path = base_dir ++ t := by
  simp only [get_safe_path] at h
  split at h
  · rename_i hc
    injection h with h1
    subst h1
    exact ⟨rfl, hc, commonpath_eq_append _ _ hc⟩
  · exact absurd h (by simp)

/-- Witness for C1 at a concrete accepted input. -/
theorem confinement_guard_sound_witness :
    get_safe_path fs0 root0 ftxt = Except.ok p0 ∧
    (p0 = realpath fs0 (root0 ++ splitComponents (lstripSlashes ftxt)) ∧
      commonpath root0 p0 = root0 ∧ ∃ t, p0 = root0 ++ t) :=
  ⟨by decide, confinement_guard_sound fs0 root0 ftxt p0 (by decide)⟩

/-- Claim C2, counterexample: a confinement-rejected upload is answered
with HTTP status 500, not a 403-equivalent, so the claim as stated fails
for the upload endpoint. -/
theorem upload_rejection_status_counterexample :
    get_safe_path fs0 root0 dotdotEscape = Except.error accessDeniedMsg ∧
    (upload_file fs0 root0 dotdotEscape bytes0).2.status = 500 ∧
    ¬(upload_file fs0 root0 dotdotEscape bytes0).2.status = 403 :=
  ⟨by decide, by decide, by decide⟩

/-- Claim C2, amended: a confinement-rejected request to download, list or
exists is answered 403 with the fixed generic body, and a
confinement-rejected upload is answered 500 with a fixed message that
embeds only the guard's generic text; every message is a constant
independent of the request, so the resolved path is never echoed, and all
four handlers return normally. -/
theorem rejection_responses_amended (fs : FS) (base_dir : List String)
    (s f : String) (content : List Nat) (e1 e2 : String)
    (h1 : get_safe_path fs base_dir (unquote s) = Except.error e1)
    (h2 : get_safe_path fs base_dir f = Except.error e2) :
    download_file fs base_dir s = ⟨403, Body.msg accessDeniedShort⟩ ∧
    list_files fs base_dir s = ⟨403, Body.msg accessDeniedShort⟩ ∧
    exists_path fs base_dir s = ⟨403, Body.msg accessDeniedShort⟩ ∧
    upload_file fs base_dir f content =
      (fs, ⟨500, Body.msg (uploadFailMsg ++ accessDeniedMsg)⟩) := by
  have he2 := get_safe_path_error_eq fs base_dir f e2 h2
  subst he2
  refine ⟨?_, ?_, ?_, ?_⟩
  · simp only [download_file, h1]
  · simp only [list_files, h1]
  · simp only [exists_path, h1]
  · simp only [upload_file, h2]

/-- Witness for the amended C2 at a concrete rejected input. -/
theorem rejection_responses_amended_witness :
    download_file fs0 root0 dotdotEscape = ⟨403, Body.msg accessDeniedShort⟩ ∧
    list_files fs0 root0 dotdotEscape = ⟨403, Body.msg accessDeniedShort⟩ ∧
    exists_path fs0 root0 dotdotEscape = ⟨403, Body.msg accessDeniedShort⟩ ∧
    upload_file fs0 root0 dotdotEscape bytes0 =
      (fs0, ⟨500, Body.msg (uploadFailMsg ++ accessDeniedMsg)⟩) :=
  rejection_responses_amended fs0 root0 dotdotEscape dotdotEscape bytes0
    accessDeniedMsg accessDeniedMsg (by decide) (by decide)

/-- Claim C3: the executor is a total function of the subprocess outcome;
a completed run is echoed field by field, and any execution-setup failure
yields exactly empty stdout, a stderr that describes the failure, and the
synthetic exit code 1. -/
theorem execute_never_raises (world : SubprocessCall → Except String RunResult)
    (environ : String → Option String) (dirs : Dirs) (request : ExecuteRequest) :
    (∀ e, world (executeCall environ dirs request) = Except.error e →
      execute_command world environ dirs request =
        { stdout := emptyStr, stderr := execFailMsg ++ e, exit_code := 1 }) ∧
    (∀ r, world (executeCall environ dirs request) = Except.ok r →
      execute_command world environ dirs request =
        { stdout := r.stdout, stderr := r.stderr, exit_code := r.returncode }) := by
  constructor
  · intro e h
    simp only [execute_command, h]
  · intro r h
    simp only [execute_command, h]

/-- Witness for C3 under an oracle that always fails before the shell
runs. -/
theorem execute_never_raises_witness :
    execute_command worldErr env0 dirs0 req0 =
      { stdout := emptyStr, stderr := execFailMsg ++ boomMsg, exit_code := 1 } :=
  (execute_never_raises worldErr env0 dirs0 req0).1 boomMsg rfl

/-- Claim C4: uploading bytes under a guard-accepted name writes exactly
those bytes at the confined path (creating or overwriting), and a
subsequent download of the same name streams exactly those bytes back with
the octet-stream content type and the decoded name as filename. -/
theorem upload_download_roundtrip (fs fs2 : FS) (base_dir : List String)
    (f enc : String) (content : List Nat) (p : List String)
    (henc : unquote enc = f)
    (hok : get_safe_path fs base_dir f = Except.ok p)
    (hw : fs.writeFile p content = Except.ok fs2) :
    upload_file fs base_dir f content =
      (fs2, ⟨200, Body.msg (uploadOkL ++ f ++ uploadOkR)⟩) ∧
    download_file fs2 base_dir enc = ⟨200, Body.fileStream p octetStream f content⟩ := by
  obtain ⟨hsym, hfiles, hdirs, hother⟩ := writeFile_ok fs fs2 p content hw
  constructor
  · simp only [upload_file, hok, hw]
  · have hguard : get_safe_path fs2 base_dir f = Except.ok p := by
      rw [get_safe_path_symlink_congr fs2 fs hsym base_dir f, hok]
    simp only [download_file, henc, hguard, hfiles]

/-- Witness for C4 at a concrete upload followed by its download. -/
theorem upload_download_roundtrip_witness :
    fs0.writeFile p0 bytes0 = Except.ok fs1 ∧
    (upload_file fs0 root0 ftxt bytes0 =
        (fs1, ⟨200, Body.msg (uploadOkL ++ ftxt ++ uploadOkR)⟩) ∧
      download_file fs1 root0 ftxt = ⟨200, Body.fileStream p0 octetStream ftxt bytes0⟩) :=
  ⟨rfl, upload_download_roundtrip fs0 fs1 root0 ftxt ftxt bytes0 p0
    (by decide) (by decide) rfl⟩

/-- Claim C5: an upload whose filename the guard rejects performs no
write: the filesystem component of the result is the input filesystem
unchanged (the guard runs before any write), and the response is the 500
failure. -/
theorem rejected_upload_writes_nothing (fs : FS) (base_dir : List String)
    (f : String) (content : List Nat) (e : String)
    (h : get_safe_path fs base_dir f = Except.error e) :
    (upload_file fs base_dir f content).1 = fs ∧
    (upload_file fs base_dir f content).2.status = 500 := by
  simp [upload_file, h]

/-- Witness for C5 at a concrete rejected upload. -/
theorem rejected_upload_writes_nothing_witness :
    (upload_file fs0 root0 dotdotEscape bytes0).1 = fs0 ∧
    (upload_file fs0 root0 dotdotEscape bytes0).2.status = 500 :=
  rejected_upload_writes_nothing fs0 root0 dotdotEscape bytes0 accessDeniedMsg (by decide)

/-- Claim C6: the exists handler decodes its input and confines it; on
rejection it answers 403 access denied, otherwise 200 with the decoded
(not resolved) input and a boolean that is true exactly when a file or
directory is present at the confined path; a confinement-valid but absent
path yields 200 with `exists = false`, not an error. -/
theorem exists_endpoint_behavior (fs : FS) (base_dir : List String) (s : String) :
    (∀ e, get_safe_path fs base_dir (unquote s) = Except.error e →
      exists_path fs base_dir s = ⟨403, Body.msg accessDeniedShort⟩) ∧
    (∀ p, get_safe_path fs base_dir (unquote s) = Except.ok p →
      exists_path fs base_dir s = ⟨200, Body.existsBody (unquote s) (fs.pexists p)⟩ ∧
      (fs.pexists p = false →
        exists_path fs base_dir s = ⟨200, Body.existsBody (unquote s) false⟩)) := by
  constructor
  · intro e h
    simp only [exists_path, h]
  · intro p h
    constructor
    · simp only [exists_path, h]
    · intro hab
      simp only [exists_path, h, hab]

/-- Witness for C6: an accepted absent path answers 200, a rejected path
answers 403. -/
theorem exists_endpoint_behavior_witness :
    exists_path fs0 root0 ftxt = ⟨200, Body.existsBody (unquote ftxt) (fs0.pexists p0)⟩ ∧
    exists_path fs0 root0 dotdotEscape = ⟨403, Body.msg accessDeniedShort⟩ :=
  ⟨((exists_endpoint_behavior fs0 root0 ftxt).2 p0 (by decide)).1,
    (exists_endpoint_behavior fs0 root0 dotdotEscape).1 accessDeniedMsg (by decide)⟩

/-- Claim C7: for a guard-accepted input the list handler answers 404 when
the resolved path is not a directory; when enumeration raises it answers a
single 500 failure message with no partial results; otherwise it answers
200 with exactly one record per immediate child, each of shape name, byte
size, type `file` or `directory`, and modification time. -/
theorem list_endpoint_behavior (fs : FS) (base_dir : List String) (s : String)
    (p : List String)
    (h : get_safe_path fs base_dir (unquote s) = Except.ok p) :
    (fs.dirs p = false → list_files fs base_dir s = ⟨404, Body.msg notDirMsg⟩) ∧
    (∀ e, fs.dirs p = true → fs.scandir p = Except.error e →
      list_files fs base_dir s = ⟨500, Body.msg (listFailMsg ++ e)⟩) ∧
    (∀ es, fs.dirs p = true → fs.scandir p = Except.ok es →
      list_files fs base_dir s = ⟨200, Body.entries (es.map entryRecord)⟩) := by
  refine ⟨?_, ?_, ?_⟩
  · intro hd
    simp [list_files, h, list_resolved, hd]
  · intro e hd hs
    simp [list_files, h, list_resolved, hd, hs]
  · intro es hd hs
    simp [list_files, h, list_resolved, hd, hs]

/-- Witness for C7: listing the workspace root yields its one child,
listing a file answers 404. -/
theorem list_endpoint_behavior_witness :
    list_files fs0 root0 emptyStr = ⟨200, Body.entries ([entry0].map entryRecord)⟩ ∧
    list_files fs0 root0 oldTxt = ⟨404, Body.msg notDirMsg⟩ :=
  ⟨(list_endpoint_behavior fs0 root0 emptyStr root0 (by decide)).2.2 [entry0]
      (by decide) (by decide),
    (list_endpoint_behavior fs0 root0 oldTxt [tmpStr, wsStr, oldTxt] (by decide)).1
      (by decide)⟩

/-- Claim C8: the subprocess call the executor builds runs the caller's
command string verbatim through a shell, with the workspace root as
working directory, and with the process environment overlaid by `HOME`,
`XDG_RUNTIME_DIR`, `XDG_CACHE_HOME` and `XDG_CONFIG_HOME`, each pointing
at the corresponding confined directory; every other key is passed
through. -/
theorem execute_call_environment (environ : String → Option String) (dirs : Dirs)
    (request : ExecuteRequest) :
    (executeCall environ dirs request).cmd = request.command ∧
    (executeCall environ dirs request).shell = true ∧
    (executeCall environ dirs request).cwd = renderPath dirs.workspace ∧
    (executeCall environ dirs request).env envHome = some (renderPath dirs.workspace) ∧
    (executeCall environ dirs request).env envRuntime = some (renderPath dirs.runtime) ∧
    (executeCall environ dirs request).env envCache = some (renderPath dirs.cache) ∧
    (executeCall environ dirs request).env envConfig = some (renderPath dirs.config) ∧
    ∀ k, k ≠ envHome → k ≠ envRuntime → k ≠ envCache → k ≠ envConfig →
      (executeCall environ dirs request).env k = environ k := by
  refine ⟨rfl, rfl, rfl, ?_, ?_, ?_, ?_, ?_⟩
  · simp only [executeCall, envOverlay]
    rw [if_pos trivial]
  · simp only [executeCall, envOverlay]
    rw [if_neg (by decide), if_pos trivial]
  · simp only [executeCall, envOverlay]
    rw [if_neg (by decide), if_neg (by decide), if_pos trivial]
  · simp only [executeCall, envOverlay]
    rw [if_neg (by decide), if_neg (by decide), if_neg (by decide), if_pos trivial]
  · intro k h1 h2 h3 h4
    simp only [executeCall, envOverlay]
    rw [if_neg h1, if_neg h2, if_neg h3, if_neg h4]

/-- Witness for C8 at a concrete environment and request. -/
theorem execute_call_environment_witness :
    (executeCall env0 dirs0 req0).cwd = renderPath dirs0.workspace ∧
    (executeCall env0 dirs0 req0).env pathKey = env0 pathKey :=
  ⟨(execute_call_environment env0 dirs0 req0).2.2.1,
    (execute_call_environment env0 dirs0 req0).2.2.2.2.2.2.2 pathKey
      (by decide) (by decide) (by decide) (by decide)⟩

/-- Claim C9: the empty input and every separator-only input confine to
the workspace root itself (stripping leaves the empty relative path, which
joins and resolves back to the canonical root and passes the common-prefix
check), so the exists and list handlers applied to such inputs operate on
the workspace root instead of rejecting. -/
theorem slash_only_paths_resolve_to_root (fs : FS) (root : List String) (s : String)
    (hs : s.data.all (fun c => c == '/') = true)
    (hclean : cleanComps root = true)
    (hsym : noSymlinkAlong fs [] root = true) :
    get_safe_path fs root s = Except.ok root ∧
    exists_path fs root s = ⟨200, Body.existsBody s (fs.pexists root)⟩ ∧
    list_files fs root s = list_resolved fs root := by
  have hlstrip : lstripSlashes s = emptyStr := by
    simp only [lstripSlashes]
    have hdrop : s.data.dropWhile (fun c => c == '/') = [] :=
      List.dropWhile_eq_nil_iff.mpr (fun x hx => List.all_eq_true.mp hs x hx)
    rw [hdrop]
    rfl
  have hsplit : splitComponents emptyStr = ([] : List String) := by decide
  have hguard : get_safe_path fs root s = Except.ok root := by
    simp only [get_safe_path, hlstrip, hsplit, List.append_nil,
      realpath_root fs root hclean hsym, commonpath_self root]
    rw [if_pos trivial]
  have hdec : unquote s = s := unquote_all_slash s hs
  refine ⟨hguard, ?_, ?_⟩
  · simp only [exists_path, hdec, hguard]
  · simp only [list_files, hdec, hguard]

/-- Witness for C9 at a concrete separator-only input. -/
theorem slash_only_paths_resolve_to_root_witness :
    get_safe_path fs0 root0 slashes0 = Except.ok root0 ∧
    exists_path fs0 root0 slashes0 = ⟨200, Body.existsBody slashes0 (fs0.pexists root0)⟩ ∧
    list_files fs0 root0 slashes0 = list_resolved fs0 root0 :=
  slash_only_paths_resolve_to_root fs0 root0 slashes0 (by decide) (by decide) (by decide)

/-- Claim C10: an upload whose filename confines to an existing directory
(the workspace root included, as with an empty filename) fails with a 500
structured message (the caught `IsADirectoryError`), no file is written
and the filesystem is returned unchanged. -/
theorem upload_to_directory_fails (fs : FS) (base_dir : List String) (f : String)
    (content : List Nat) (p : List String)
    (hok : get_safe_path fs base_dir f = Except.ok p)
    (hdir : fs.dirs p = true) :
    upload_file fs base_dir f content =
      (fs, ⟨500, Body.msg (uploadFailMsg ++ (errnoIsADirMsg ++ renderPath p ++ quoteStr))⟩) := by
  simp [upload_file, hok, FS.writeFile, hdir]

/-- Witness for C10: uploading under the empty filename targets the
workspace root directory and fails without writing. -/
theorem upload_to_directory_fails_witness :
    get_safe_path fs0 root0 emptyStr = Except.ok root0 ∧
    fs0.dirs root0 = true ∧
    upload_file fs0 root0 emptyStr bytes0 =
      (fs0, ⟨500, Body.msg (uploadFailMsg ++ (errnoIsADirMsg ++ renderPath root0 ++ quoteStr))⟩) :=
  ⟨by decide, by decide,
    upload_to_directory_fails fs0 root0 emptyStr bytes0 root0 (by decide) (by decide)⟩
